import Mathlib

/-!
Verification of the memeamp allocation/synchronization engine.

The definitions below are a shallow embedding of the engine code in
`src/wallet.ts` and `src/utils/tdh.ts`: JS numbers that the engine treats as
integers are modelled as `Int` (so `Math.round`/`Math.floor` are the identity
on them), out-of-band `NaN` candidate markers become `Option`, remote calls
become an explicit environment of `RemoteResult`s consumed in program order,
and module-level mutable state becomes an explicit `EngineState` record.
-/

set_option maxHeartbeats 1000000

/-- Result of a remote SDK call: resolved, or rejected with an error message. -/
inductive RemoteResult (α : Type) where
  | ok (val : α)
  | err (msg : String)
deriving DecidableEq

/-- The value of the source's `down` variable before its range check: the value of
the form `base' * block + 67` obtained from `base = floor(reqInt / block)`,
stepped into the `base - 1` block when `base * block + 67` overshoots `reqInt`. -/
def patternDownCand (block reqInt : Nat) : Nat :=
  let base := reqInt / block
  let d0 := base * block + 67
  if d0 > reqInt then (base - 1) * block + 67 else d0

/-- The lower pattern candidate of `normalizeTDHToPattern` / `normalizeRepToPattern`
(`down` in the source), or `none` (the source's `NaN`) when it falls outside
`[threshold, maxInt]`. -/
def patternDown (block threshold reqInt maxInt : Nat) : Option Nat :=
  let d1 := patternDownCand block reqInt
  if d1 < threshold ∨ d1 > maxInt then none else some d1

/-- The source's `upBase` variable. Mirrors the source exactly: it is bumped to
`base + 1` whenever the (valid) lower candidate is strictly below `reqInt`, even
when the lower candidate came from the `base - 1` block. -/
def patternUpBase (block threshold reqInt maxInt : Nat) : Nat :=
  let base := reqInt / block
  match patternDown block threshold reqInt maxInt with
  | some d => if d < reqInt then base + 1 else base
  | none => base

/-- The upper pattern candidate (`up` in the source), or `none` when it falls
outside `[threshold, maxInt]`. -/
def patternUp (block threshold reqInt maxInt : Nat) : Option Nat :=
  let u0 := patternUpBase block threshold reqInt maxInt * block + 67
  if u0 < threshold ∨ u0 > maxInt then none else some u0

/-- The common pattern-snapping tail shared verbatim (up to the `block`/`threshold`
constants) by `normalizeTDHToPattern` and `normalizeRepToPattern`, starting at the
minimum-pattern-threshold check. -/
def patternSnap (block threshold reqInt maxInt : Nat) : Nat :=
  if reqInt < threshold ∨ maxInt < threshold then reqInt
  else
    match patternDown block threshold reqInt maxInt, patternUp block threshold reqInt maxInt with
    | none, none => reqInt
    | none, some u => u
    | some d, none => d
    | some d, some u =>
        if ((u : Int) - (reqInt : Int)).natAbs < ((reqInt : Int) - (d : Int)).natAbs then u else d

/-- `normalizeTDHToPattern` from `src/utils/tdh.ts` (primary pool: block 1000,
threshold 10000), on integer inputs (`Math.floor`/`Math.round` are the identity;
`Math.max(0, ·)` is `Int.toNat`). -/
def normalizeTDHToPattern (requested maxv : Int) : Int :=
  let maxInt := maxv.toNat
  let reqInt0 := requested.toNat
  if maxInt = 0 then 0
  else (patternSnap 1000 10000 (min reqInt0 maxInt) maxInt : Nat)

/-- `clampSliderValue` from `src/wallet.ts`, with the module-global `repSliderMax`
made an explicit argument. -/
def clampSliderValue (value maxv : Int) : Int :=
  if value < 0 then 0 else if value > maxv then maxv else value

/-- `normalizeRepToPattern` from `src/wallet.ts` (secondary pool: block 100,
threshold 1000), with the module-global `repSliderMax` made an explicit argument.
Note the ceiling-proximity check (`clamped >= max - 2`) precedes the
minimum-pattern-threshold check. -/
def normalizeRepToPattern (value maxv : Int) : Int :=
  if maxv ≤ 0 then 0
  else
    let clamped := clampSliderValue value maxv
    if clamped ≥ maxv - 2 then maxv
    else (patternSnap 100 1000 clamped.toNat maxv.toNat : Nat)

/-- `calculateBoostAmount` from `src/wallet.ts`. The float scaling
`Math.floor(availableTDH * 0.1)` is modelled as exact integer division by 10. -/
def calculateBoostAmount (availableTDH : Int) : Int :=
  if availableTDH < 1 then 0
  else
    let cappedAvailable := availableTDH
    if cappedAvailable < 1 then 0
    else
      let boostAmount := availableTDH / 10
      let boostAmount := if boostAmount < 1 then 1 else boostAmount
      min boostAmount cappedAvailable

/-- Is `pat` a leading segment of `s`? (helper for the JS substring check). -/
def charListLeads : List Char → List Char → Bool
  | [], _ => true
  | _ :: _, [] => false
  | a :: as, b :: bs => a == b && charListLeads as bs

/-- Does `pat` occur as a contiguous run anywhere in `s`? -/
def charListHasSub (pat : List Char) : List Char → Bool
  | [] => charListLeads pat []
  | s@(_ :: rest) => charListLeads pat s || charListHasSub pat rest

/-- JS `s.includes(pat)`. -/
def jsIncludes (s pat : String) : Bool :=
  charListHasSub pat.toList s.toList

/-- The substring tested first by the auth-error classifier. -/
def tag401 : String := "401"

/-- The substring tested second by the auth-error classifier. -/
def tagUnauthorized : String := "Unauthorized"

/-- The error classification used by `boostCurrentSubmission` and `submitVote`:
`message.includes` of either auth tag. -/
def isAuthMessage (msg : String) : Bool :=
  jsIncludes msg tag401 || jsIncludes msg tagUnauthorized

/-- Authoritative payload of `sdk.refreshUserData()`, restricted to the fields the
engine consumes: `user.availableTDH` and `userVotesMap[current submission]`. -/
structure Refreshed where
  availableTDH : Int
  votedForSub : Int
deriving DecidableEq

/-- Observable engine events: network calls issued by a flow, plus writes to the
stored credit `votingData.user.availableTDH`. -/
inductive Ev where
  | submitCall (amt : Int)
  | refreshCall
  | authCall
  | assignRepCall (amt : Int)
  | repFetchCall
  | setAvailTDH (v : Int)
deriving DecidableEq

/-- Recognizer for vote-submission events. -/
def isSubmitEv : Ev → Bool
  | .submitCall _ => true
  | _ => false

/-- Recognizer for re-authentication events. -/
def isAuthEv : Ev → Bool
  | .authCall => true
  | _ => false

/-- Recognizer for rep-assignment events. -/
def isAssignEv : Ev → Bool
  | .assignRepCall _ => true
  | _ => false

/-- Number of vote submissions in a log. -/
def submitCount (log : List Ev) : Nat := log.countP isSubmitEv

/-- Number of re-authentications in a log. -/
def authCount (log : List Ev) : Nat := log.countP isAuthEv

/-- Number of rep assignments in a log. -/
def assignCount (log : List Ev) : Nat := log.countP isAssignEv

/-- The module-level mutable state of `src/wallet.ts` that the mutation flows
read and write. `displayTDH`/`displayRep` are the two identity-info DOM fields
written by `updateIdentityInfoDisplay`; `stagedVote` is
`window.pendingTDHAssignment`; the `rep*` fields are the module globals of the
same names; `repDataRequestId` is the generation counter. -/
structure EngineState where
  availableTDH : Int
  votedForSub : Int
  displayTDH : Int
  displayRep : Int
  currentAssignedTDH : Int
  stagedVote : Int
  currentRepAssignment : Int
  currentRepTotalAssigned : Int
  pendingRepAssignment : Int
  availableRepCredit : Int
  repSliderMax : Int
  repDataRequestId : Nat
deriving DecidableEq

/-- `updateIdentityInfoDisplay(tdh, rep)`: writes the two display fields. -/
def updateIdentityInfoDisplay (tdh rep : Int) (st : EngineState) : EngineState :=
  { st with displayTDH := tdh, displayRep := rep }

/-- `updateTDHSlider(assignedTDH, availableTDH)`: repositions the slider (display
only, via `availableTDH`), shows `assignedTDH`, and stores it into
`window.currentAssignedTDH` and `window.pendingTDHAssignment`. -/
def updateTDHSlider (assignedTDH availableTDH : Int) (st : EngineState) : EngineState :=
  let _sliderMax := assignedTDH + availableTDH
  { st with displayTDH := assignedTDH, currentAssignedTDH := assignedTDH,
            stagedVote := assignedTDH }

/-- `resetTDHSliderState()`. -/
def resetTDHSliderState (st : EngineState) : EngineState :=
  updateTDHSlider st.currentAssignedTDH st.availableTDH st

/-- `mergeRefreshedUserData(refreshed)`: overwrites the stored user credit and the
current submission's vote total with the authoritative payload. -/
def mergeRefreshedUserData (st : EngineState) (r : Refreshed) : EngineState :=
  { st with availableTDH := r.availableTDH, votedForSub := r.votedForSub }

/-- `updateRepSlider(assignedRep, repCredit)` from `src/wallet.ts`
(`normalizeInteger` is the identity on integers, `normalizeNonNegative` is
`max 0`; the trailing `updateIdentityInfoDisplay` call shows
`window.currentAssignedTDH` and the signed rep total). -/
def updateRepSlider (assignedRep repCredit : Int) (st : EngineState) : EngineState :=
  let totalAssigned := assignedRep
  let credit := max 0 repCredit
  let sliderAssigned := max 0 totalAssigned
  let sliderMax := sliderAssigned + credit
  { st with repSliderMax := sliderMax,
            currentRepAssignment := sliderAssigned,
            currentRepTotalAssigned := totalAssigned,
            pendingRepAssignment := sliderAssigned,
            availableRepCredit := credit,
            displayTDH := st.currentAssignedTDH,
            displayRep := totalAssigned }

/-- First half of `updateRepDataForSubmission`: `const requestId = ++repDataRequestId`.
Returns the updated state and the issued generation token. -/
def issueRepRequest (st : EngineState) : EngineState × Nat :=
  let rid := st.repDataRequestId + 1
  ({ st with repDataRequestId := rid }, rid)

/-- Second half of `updateRepDataForSubmission`, after the awaited fetch resolves:
both the success and the failure handler first discard the response if its
generation token is no longer current. -/
def applyRepResponse (st : EngineState) (rid : Nat) (res : RemoteResult (Int × Int)) :
    EngineState :=
  match res with
  | .ok (assignedRep, repCredit) =>
      if rid ≠ st.repDataRequestId then st
      else updateRepSlider assignedRep repCredit st
  | .err _ =>
      if rid ≠ st.repDataRequestId then st
      else updateRepSlider 0 0 st

/-- `updateRepDataForSubmission` run to completion with no interleaving: issue a
generation token, perform the combined `getRepRating`/`getRepCredit` fetch, apply
the response. -/
def updateRepDataForSubmission (st : EngineState) (res : RemoteResult (Int × Int)) :
    EngineState × List Ev :=
  let (st1, rid) := issueRepRequest st
  (applyRepResponse st1 rid res, [Ev.repFetchCall])

/-- An interleaved operation on the rep generation counter: either a new request is
issued (submission focus changed) or an in-flight response with token `rid` lands. -/
inductive RepOp where
  | issue
  | respond (rid : Nat) (res : RemoteResult (Int × Int))

/-- One step of the interleaved rep-request protocol. -/
def repStep (st : EngineState) : RepOp → EngineState
  | .issue => (issueRepRequest st).1
  | .respond rid res => applyRepResponse st rid res

/-- A whole interleaving of issues and responses. -/
def repRun (st : EngineState) (ops : List RepOp) : EngineState :=
  ops.foldl repStep st

/-- The remote results consumed, in program order, by one run of
`boostCurrentSubmission`: first submission, first refresh, re-authentication,
retried submission, post-retry refresh. Unreached fields are ignored. -/
structure BoostEnv where
  submit1 : RemoteResult Unit
  refresh1 : RemoteResult Refreshed
  auth : RemoteResult Unit
  submit2 : RemoteResult Unit
  refresh2 : RemoteResult Refreshed

/-- The remote results consumed by one run of `submitVote`. -/
structure VoteEnv where
  submit1 : RemoteResult Unit
  refresh1 : RemoteResult Refreshed
  auth : RemoteResult Unit
  submit2 : RemoteResult Unit
  refresh2 : RemoteResult Refreshed

/-- The remote results consumed by one run of `assignRepToCurrentSubmission`:
the `assignRep` call, the background refetch after success, and the awaited
refetch after failure. -/
structure RepEnv where
  assign : RemoteResult Unit
  refetch1 : RemoteResult (Int × Int)
  refetch2 : RemoteResult (Int × Int)

/-- User-visible outcome of a boost attempt (which `showError` branch ran). -/
inductive BoostOutcome where
  | insufficient
  | success
  | sessionExpired
  | failed (msg : String)
deriving DecidableEq

/-- User-visible outcome of a vote attempt. -/
inductive VoteOutcome where
  | invalidAmount
  | success
  | sessionExpired
  | failed (msg : String)
deriving DecidableEq

/-- User-visible outcome of a rep-assignment attempt. Its failure branch does not
carry the error message: the source shows a fixed generic string and never
inspects the message. -/
inductive RepOutcome where
  | insufficientRep
  | success
  | failed
deriving DecidableEq

/-- The `catch` block of `boostCurrentSubmission`: revert the displayed totals,
zero the stored available TDH, then classify the message; on an auth-class
message re-authenticate once and retry once, any failure there reverting the
display again and surfacing the session-expired error. -/
def boostCatch (st : EngineState) (env : BoostEnv)
    (currentTDH availableTDH newTotalTDH : Int) (msg : String) (log : List Ev) :
    EngineState × BoostOutcome × List Ev :=
  let st1 := updateIdentityInfoDisplay currentTDH availableTDH st
  let st2 := { st1 with availableTDH := 0 }
  let log := log ++ [Ev.setAvailTDH 0]
  if isAuthMessage msg then
    match env.auth with
    | .ok _ =>
        match env.submit2 with
        | .ok _ =>
            match env.refresh2 with
            | .ok r =>
                let st3 := mergeRefreshedUserData st2 r
                let st4 := updateIdentityInfoDisplay r.votedForSub r.availableTDH st3
                (st4, .success,
                  log ++ [Ev.authCall, Ev.submitCall newTotalTDH, Ev.refreshCall,
                          Ev.setAvailTDH r.availableTDH])
            | .err _ =>
                (updateIdentityInfoDisplay currentTDH availableTDH st2, .sessionExpired,
                  log ++ [Ev.authCall, Ev.submitCall newTotalTDH, Ev.refreshCall])
        | .err _ =>
            (updateIdentityInfoDisplay currentTDH availableTDH st2, .sessionExpired,
              log ++ [Ev.authCall, Ev.submitCall newTotalTDH])
    | .err _ =>
        (updateIdentityInfoDisplay currentTDH availableTDH st2, .sessionExpired,
          log ++ [Ev.authCall])
  else
    (st2, .failed msg, log)

/-- `boostCurrentSubmission` from `src/wallet.ts`, with the session/submission
preconditions assumed (they return before any engine action). The optimistic
update writes only the displayed totals; `votingData` itself is first written by
the merge of the authoritative refresh, or by the zeroing in the catch block. -/
def boostCurrentSubmission (st : EngineState) (env : BoostEnv) :
    EngineState × BoostOutcome × List Ev :=
  let currentTDH := st.votedForSub
  let availableTDH := st.availableTDH
  let boostAmount := calculateBoostAmount availableTDH
  if boostAmount < 1 then (st, .insufficient, [])
  else
    let maxTDH := currentTDH + availableTDH
    let requestedTotal := currentTDH + boostAmount
    let normalizedTotal := normalizeTDHToPattern requestedTotal maxTDH
    let normalizedBoostAmount := normalizedTotal - currentTDH
    if normalizedBoostAmount < 1 then (st, .insufficient, [])
    else
      let newTotalTDH := normalizedTotal
      let st1 := updateIdentityInfoDisplay newTotalTDH (availableTDH - normalizedBoostAmount) st
      match env.submit1 with
      | .ok _ =>
          match env.refresh1 with
          | .ok r =>
              let st2 := mergeRefreshedUserData st1 r
              let st3 := updateIdentityInfoDisplay r.votedForSub r.availableTDH st2
              (st3, .success,
                [Ev.submitCall newTotalTDH, Ev.refreshCall, Ev.setAvailTDH r.availableTDH])
          | .err e =>
              boostCatch st1 env currentTDH availableTDH newTotalTDH e
                [Ev.submitCall newTotalTDH, Ev.refreshCall]
      | .err e =>
          boostCatch st1 env currentTDH availableTDH newTotalTDH e
            [Ev.submitCall newTotalTDH]

/-- The `catch` block of `submitVote`: no optimistic state was applied, so the
failure branches leave the state as received; an auth-class message triggers one
re-authentication and one retry. -/
def voteCatch (st : EngineState) (env : VoteEnv) (voteAmount : Int) (msg : String)
    (log : List Ev) : EngineState × VoteOutcome × List Ev :=
  if isAuthMessage msg then
    match env.auth with
    | .ok _ =>
        match env.submit2 with
        | .ok _ =>
            match env.refresh2 with
            | .ok r =>
                let st1 := mergeRefreshedUserData st r
                let st2 := updateIdentityInfoDisplay r.votedForSub r.availableTDH st1
                let st3 := updateTDHSlider r.votedForSub r.availableTDH st2
                (st3, .success,
                  log ++ [Ev.authCall, Ev.submitCall voteAmount, Ev.refreshCall,
                          Ev.setAvailTDH r.availableTDH])
            | .err _ =>
                (st, .sessionExpired,
                  log ++ [Ev.authCall, Ev.submitCall voteAmount, Ev.refreshCall])
        | .err _ =>
            (st, .sessionExpired, log ++ [Ev.authCall, Ev.submitCall voteAmount])
    | .err _ =>
        (st, .sessionExpired, log ++ [Ev.authCall])
  else
    (st, .failed msg, log)

/-- `submitVote` from `src/wallet.ts`, with the session/submission preconditions
assumed. The staged amount is `window.pendingTDHAssignment` (already an integer
in the model, so `Math.round` is the identity). -/
def submitVote (st : EngineState) (env : VoteEnv) :
    EngineState × VoteOutcome × List Ev :=
  let voteAmount := st.stagedVote
  if voteAmount ≤ 0 then (resetTDHSliderState st, .invalidAmount, [])
  else
    match env.submit1 with
    | .ok _ =>
        match env.refresh1 with
        | .ok r =>
            let st1 := mergeRefreshedUserData st r
            let st2 := updateIdentityInfoDisplay r.votedForSub r.availableTDH st1
            let st3 := updateTDHSlider r.votedForSub r.availableTDH st2
            (st3, .success,
              [Ev.submitCall voteAmount, Ev.refreshCall, Ev.setAvailTDH r.availableTDH])
        | .err e =>
            voteCatch st env voteAmount e [Ev.submitCall voteAmount, Ev.refreshCall]
    | .err e =>
        voteCatch st env voteAmount e [Ev.submitCall voteAmount]

/-- `assignRepToCurrentSubmission` from `src/wallet.ts`, with the
session/submission/artist-identity preconditions assumed. Its catch block never
classifies the error and never re-authenticates: it surfaces a fixed message and
awaits an authoritative refetch. -/
def assignRepToCurrentSubmission (st : EngineState) (env : RepEnv) :
    EngineState × RepOutcome × List Ev :=
  let desiredRep := st.pendingRepAssignment
  let currentSliderAssigned := max 0 st.currentRepTotalAssigned
  let increaseNeeded := max 0 (desiredRep - currentSliderAssigned)
  if increaseNeeded > st.availableRepCredit then (st, .insufficientRep, [])
  else
    match env.assign with
    | .ok _ =>
        let decrease := max 0 (currentSliderAssigned - desiredRep)
        let st1 := { st with
          availableRepCredit := st.availableRepCredit - increaseNeeded + decrease,
          currentRepTotalAssigned := desiredRep }
        let st2 := updateRepSlider st1.currentRepTotalAssigned st1.availableRepCredit st1
        let (st3, log3) := updateRepDataForSubmission st2 env.refetch1
        (st3, .success, Ev.assignRepCall desiredRep :: log3)
    | .err _ =>
        let (st1, log1) := updateRepDataForSubmission st env.refetch2
        (st1, .failed, Ev.assignRepCall desiredRep :: log1)

/-- The refresh guard's own state: the module globals `isRefreshingBoostData` and
`lastBoostDataRefresh`, plus whether `votingData` is non-null. -/
structure GuardState where
  hasVotingData : Bool
  isRefreshingBoostData : Bool
  lastBoostDataRefresh : Int
deriving DecidableEq

/-- `refreshBoostDataIfNeeded(force)` from `src/wallet.ts`. `now` is `Date.now()`
on entry and `finish` is `Date.now()` when the successful fetch resolves. Returns
the new guard state, the new engine state, and whether a network refresh was
performed. -/
def refreshBoostDataIfNeeded (g : GuardState) (st : EngineState) (now finish : Int)
    (force : Bool) (env : RemoteResult Refreshed) :
    GuardState × EngineState × Bool :=
  if !g.hasVotingData || g.isRefreshingBoostData then (g, st, false)
  else
    let availableTDH := st.availableTDH
    let shouldRefresh := force || g.lastBoostDataRefresh == 0 || availableTDH < 1
      || (30000 < now - g.lastBoostDataRefresh)
    if !shouldRefresh then (g, st, false)
    else
      match env with
      | .ok r =>
          ({ g with lastBoostDataRefresh := finish, isRefreshingBoostData := false },
            mergeRefreshedUserData st r, true)
      | .err _ =>
          ({ g with isRefreshingBoostData := false },
            { st with availableTDH := 0 }, true)

/-- The new absolute total a boost run proposes: current total plus raw boost
amount, snapped by the primary-pool normalizer with ceiling `current + available`. -/
def boostNewTotal (st : EngineState) : Int :=
  normalizeTDHToPattern (st.votedForSub + calculateBoostAmount st.availableTDH)
    (st.votedForSub + st.availableTDH)

/-- A non-authentication failure message (no auth tag occurs in it). -/
def msgNetwork : String := "Failed to fetch"

/-- An authentication-class failure message (contains both auth tags). -/
def msg401 : String := "HTTP 401 Unauthorized"

/-- A concrete engine state: 50 available TDH, nothing assigned yet, a staged rep
assignment of 10 against 50 available rep credit. -/
def sampleState : EngineState :=
  { availableTDH := 50, votedForSub := 0, displayTDH := 0, displayRep := 0,
    currentAssignedTDH := 0, stagedVote := 20,
    currentRepAssignment := 0, currentRepTotalAssigned := 0, pendingRepAssignment := 10,
    availableRepCredit := 50, repSliderMax := 60, repDataRequestId := 0 }

/-- `sampleState` with a non-positive staged vote. -/
def sampleStateZeroVote : EngineState :=
  { sampleState with stagedVote := 0 }

/-- A boost environment whose first submission fails with a network error. -/
def benvNetworkErr : BoostEnv :=
  { submit1 := .err msgNetwork, refresh1 := .ok { availableTDH := 40, votedForSub := 10 },
    auth := .ok (), submit2 := .ok (),
    refresh2 := .ok { availableTDH := 40, votedForSub := 10 } }

/-- A boost environment whose first submission fails with a 401 and whose
re-authentication also fails. -/
def benvAuthErr : BoostEnv :=
  { submit1 := .err msg401, refresh1 := .ok { availableTDH := 40, votedForSub := 10 },
    auth := .err msgNetwork, submit2 := .ok (),
    refresh2 := .ok { availableTDH := 40, votedForSub := 10 } }

/-- A vote environment whose every call succeeds. -/
def venvAllOk : VoteEnv :=
  { submit1 := .ok (), refresh1 := .ok { availableTDH := 30, votedForSub := 20 },
    auth := .ok (), submit2 := .ok (),
    refresh2 := .ok { availableTDH := 30, votedForSub := 20 } }

/-- A vote environment whose first submission fails with a 401 and whose
re-authentication also fails. -/
def venvAuthErr : VoteEnv :=
  { submit1 := .err msg401, refresh1 := .ok { availableTDH := 30, votedForSub := 20 },
    auth := .err msgNetwork, submit2 := .ok (),
    refresh2 := .ok { availableTDH := 30, votedForSub := 20 } }

/-- A rep environment whose `assignRep` call fails with a 401-class error. -/
def renv401 : RepEnv :=
  { assign := .err msg401, refetch1 := .ok (0, 50), refetch2 := .ok (0, 50) }

/-- A guard state with a session present, no refresh in flight, and a last
refresh at time 1000. -/
def sampleGuard : GuardState :=
  { hasVotingData := true, isRefreshingBoostData := false, lastBoostDataRefresh := 1000 }

/-! ## Helper lemmas about the pattern normalizers -/

theorem clampSliderValue_bounds (value maxv : Int) (h : 0 ≤ maxv) :
    0 ≤ clampSliderValue value maxv ∧ clampSliderValue value maxv ≤ maxv := by
  unfold clampSliderValue
  split_ifs <;> omega

theorem patternSnap_eq_of_lt {b t r m : Nat} (h : r < t ∨ m < t) :
    patternSnap b t r m = r := by
  unfold patternSnap
  exact if_pos h

theorem patternDown_bounds {b t r m d : Nat} (h : patternDown b t r m = some d) :
    t ≤ d ∧ d ≤ m := by
  simp only [patternDown] at h
  split at h
  · exact absurd h (by simp)
  · next hc =>
      rw [Option.some.injEq] at h
      subst h
      push_neg at hc
      exact ⟨hc.1, hc.2⟩

theorem patternUp_bounds {b t r m u : Nat} (h : patternUp b t r m = some u) :
    t ≤ u ∧ u ≤ m := by
  simp only [patternUp] at h
  split at h
  · exact absurd h (by simp)
  · next hc =>
      rw [Option.some.injEq] at h
      subst h
      push_neg at hc
      exact ⟨hc.1, hc.2⟩

theorem patternDown_mod {b t r m d : Nat} (h : patternDown b t r m = some d) :
    d % b = 67 % b := by
  simp only [patternDown] at h
  split at h
  · exact absurd h (by simp)
  · rw [Option.some.injEq] at h
    subst h
    simp only [patternDownCand]
    split
    · rw [Nat.add_comm, Nat.add_mul_mod_self_right]
    · rw [Nat.add_comm, Nat.add_mul_mod_self_right]

theorem patternUp_mod {b t r m u : Nat} (h : patternUp b t r m = some u) :
    u % b = 67 % b := by
  simp only [patternUp] at h
  split at h
  · exact absurd h (by simp)
  · rw [Option.some.injEq] at h
    subst h
    rw [Nat.add_comm, Nat.add_mul_mod_self_right]

theorem patternSnap_cases (b t r m : Nat) :
    patternSnap b t r m = r ∨
      (t ≤ patternSnap b t r m ∧ patternSnap b t r m ≤ m ∧
        patternSnap b t r m % b = 67 % b) := by
  unfold patternSnap
  split
  · exact Or.inl rfl
  · split
    · exact Or.inl rfl
    · next hd hu => exact Or.inr ⟨(patternUp_bounds hu).1, (patternUp_bounds hu).2, patternUp_mod hu⟩
    · next hd hu => exact Or.inr ⟨(patternDown_bounds hd).1, (patternDown_bounds hd).2, patternDown_mod hd⟩
    · next hd hu =>
        split
        · exact Or.inr ⟨(patternUp_bounds hu).1, (patternUp_bounds hu).2, patternUp_mod hu⟩
        · exact Or.inr ⟨(patternDown_bounds hd).1, (patternDown_bounds hd).2, patternDown_mod hd⟩

/-! ## Claims about the pattern normalizers (C3 - C6) -/

/-- C3: for every ceiling `maxv ≥ 0` and every requested value (negative values
and values exceeding the ceiling included), the pattern normalizer of either pool
returns an integer within `[0, maxv]`. -/
theorem normalizer_range (requested maxv : Int) (h : 0 ≤ maxv) :
    (0 ≤ normalizeTDHToPattern requested maxv ∧ normalizeTDHToPattern requested maxv ≤ maxv) ∧
    (0 ≤ normalizeRepToPattern requested maxv ∧ normalizeRepToPattern requested maxv ≤ maxv) := by
  constructor
  · simp only [normalizeTDHToPattern]
    split
    · exact ⟨le_refl 0, h⟩
    · constructor
      · exact Int.natCast_nonneg _
      · rcases patternSnap_cases 1000 10000 (min requested.toNat maxv.toNat) maxv.toNat
          with hc | hc
        · rw [hc]; omega
        · omega
  · simp only [normalizeRepToPattern]
    split
    · exact ⟨le_refl 0, h⟩
    · next h0 =>
        have hb := clampSliderValue_bounds requested maxv h
        split
        · exact ⟨by omega, le_refl maxv⟩
        · constructor
          · exact Int.natCast_nonneg _
          · rcases patternSnap_cases 100 1000 (clampSliderValue requested maxv).toNat maxv.toNat
              with hc | hc
            · rw [hc]; omega
            · omega

/-- Witness for `normalizer_range` at `requested = 10050`, `maxv = 20000`. -/
theorem normalizer_range_witness :
    (0 : Int) ≤ 20000 ∧
    ((0 ≤ normalizeTDHToPattern 10050 20000 ∧ normalizeTDHToPattern 10050 20000 ≤ 20000) ∧
     (0 ≤ normalizeRepToPattern 10050 20000 ∧ normalizeRepToPattern 10050 20000 ≤ 20000)) :=
  ⟨by decide, normalizer_range 10050 20000 (by decide)⟩

/-- C4 counterexample: the primary pool's normalizer has no ceiling-proximity
special case. At `ceiling = 20000 ≥ 10000 = threshold`,
`normalizeTDHToPattern (ceiling - 1) ceiling` returns `19067`, not the ceiling. -/
theorem tdh_no_ceiling_proximity_cex :
    normalizeTDHToPattern 19999 20000 = 19067 ∧ normalizeTDHToPattern 19999 20000 ≠ 20000 := by
  decide

/-- C4 amended: only the secondary pool's normalizer returns the ceiling directly
when the clamped value is within 2 units of the ceiling — and it does so for every
positive ceiling, not only ceilings at or above the minimum-pattern threshold; in
particular `normalizeRepToPattern (ceiling - 1) ceiling = ceiling` for all
`ceiling ≥ 1`. The primary pool's normalizer has no such case:
`normalizeTDHToPattern 19999 20000 = 19067`. -/
theorem ceiling_proximity_amended :
    (∀ value maxv : Int, 0 < maxv → maxv - 2 ≤ clampSliderValue value maxv →
        normalizeRepToPattern value maxv = maxv) ∧
    (∀ maxv : Int, 1 ≤ maxv → normalizeRepToPattern (maxv - 1) maxv = maxv) ∧
    normalizeTDHToPattern 19999 20000 = 19067 := by
  have hmain : ∀ value maxv : Int, 0 < maxv → maxv - 2 ≤ clampSliderValue value maxv →
      normalizeRepToPattern value maxv = maxv := by
    intro v m h1 h2
    simp only [normalizeRepToPattern]
    rw [if_neg (by omega), if_pos (by omega)]
  refine ⟨hmain, ?_, by decide⟩
  intro m h1
  have hb : clampSliderValue (m - 1) m = m - 1 := by
    unfold clampSliderValue
    split_ifs <;> omega
  exact hmain (m - 1) m (by omega) (by omega)

/-- Witness for `ceiling_proximity_amended` at `ceiling = 10`. -/
theorem ceiling_proximity_amended_witness :
    normalizeRepToPattern (10 - 1) 10 = 10 :=
  ceiling_proximity_amended.2.1 10 (by decide)

/-- C5 counterexample: below the secondary pool's minimum-pattern threshold the
normalizer does not always return the clamped value: with `ceiling = 100 < 1000`
and `requested = 99`, the ceiling-proximity case fires first and the result is
`100`, not `clamp(99, 0, 100) = 99`. -/
theorem rep_threshold_clamp_cex :
    normalizeRepToPattern 99 100 = 100 ∧ clampSliderValue 99 100 = 99 ∧
      normalizeRepToPattern 99 100 ≠ clampSliderValue 99 100 := by
  decide

/-- C5 amended: the primary pool's normalizer returns the clamped value exactly
whenever the clamped value or the ceiling is below 10000; the secondary pool's
does so whenever the clamped value or the ceiling is below 1000 **and** the
clamped value is not within 2 units of the ceiling (the proximity case runs
first). -/
theorem threshold_clamp_amended :
    (∀ requested maxv : Int, 0 ≤ maxv →
        (min (max 0 requested) maxv < 10000 ∨ maxv < 10000) →
        normalizeTDHToPattern requested maxv = min (max 0 requested) maxv) ∧
    (∀ value maxv : Int, 0 < maxv →
        (clampSliderValue value maxv < 1000 ∨ maxv < 1000) →
        clampSliderValue value maxv < maxv - 2 →
        normalizeRepToPattern value maxv = clampSliderValue value maxv) := by
  constructor
  · intro r m h0 hlt
    simp only [normalizeTDHToPattern]
    split
    · omega
    · rw [patternSnap_eq_of_lt (by omega)]
      omega
  · intro v m h0 hlt hfar
    have hb := clampSliderValue_bounds v m (le_of_lt h0)
    simp only [normalizeRepToPattern]
    rw [if_neg (by omega), if_neg (by omega), patternSnap_eq_of_lt (by omega)]
    omega

/-- Witness for `threshold_clamp_amended` at `requested = 5`, `ceiling = 50`
(primary pool) and `value = 40`, `ceiling = 50` (secondary pool). -/
theorem threshold_clamp_amended_witness :
    normalizeTDHToPattern 5 50 = min (max 0 5) 50 ∧
    normalizeRepToPattern 40 50 = clampSliderValue 40 50 :=
  ⟨threshold_clamp_amended.1 5 50 (by decide) (by decide),
   threshold_clamp_amended.2 40 50 (by decide) (by decide) (by decide)⟩

/-- C6 counterexample: the normalizer does not return the nearest on-pattern value
in range. `normalizeTDHToPattern 11000 20000 = 10067` although `11067` is an
on-pattern value within `[10000, 20000]` strictly closer to `11000` (distance 67
versus 933): the up candidate is computed from `base + 1` even when the down
candidate came from the `base - 1` block, skipping `11067`. -/
theorem tdh_not_nearest_cex :
    normalizeTDHToPattern 11000 20000 = 10067 ∧
    (11067 : Int) % 1000 = 67 ∧ (10000 : Int) ≤ 11067 ∧ (11067 : Int) ≤ 20000 ∧
    ((11067 : Int) - 11000).natAbs < ((11000 : Int) - 10067).natAbs := by
  decide

/-- C6 amended: in the patterning regime the normalizer returns either the clamped
value (when neither computed candidate is admissible) or one of the two computed
candidates of the form `block * k + 67` within `[threshold, ceiling]`, picking the
numerically closer of the two (ties toward the lower); but the upper candidate is
not always the on-pattern value immediately above the clamped value, so the result
need not be the nearest admissible on-pattern value. The spec's concrete cases do
hold: `normalize(10050, 20000) = 10067` and `normalize(10067, 20000) = 10067`. -/
theorem pattern_snap_amended :
    normalizeTDHToPattern 10050 20000 = 10067 ∧
    normalizeTDHToPattern 10067 20000 = 10067 ∧
    (∀ b t r m : Nat,
      patternSnap b t r m = r ∨
        (t ≤ patternSnap b t r m ∧ patternSnap b t r m ≤ m ∧
          patternSnap b t r m % b = 67 % b)) :=
  ⟨by decide, by decide, patternSnap_cases⟩

/-! ## Helper lemmas about the refresh guard and the generation counter -/

theorem refresh_skip_of_noSession {g : GuardState} (st : EngineState)
    (now finish : Int) (force : Bool) (env : RemoteResult Refreshed)
    (h : g.hasVotingData = false) :
    refreshBoostDataIfNeeded g st now finish force env = (g, st, false) := by
  unfold refreshBoostDataIfNeeded
  rw [if_pos (by simp [h])]

theorem refresh_skip_of_inflight {g : GuardState} (st : EngineState)
    (now finish : Int) (force : Bool) (env : RemoteResult Refreshed)
    (h : g.isRefreshingBoostData = true) :
    refreshBoostDataIfNeeded g st now finish force env = (g, st, false) := by
  unfold refreshBoostDataIfNeeded
  rw [if_pos (by simp [h])]

theorem refresh_did_eq {g : GuardState} (st : EngineState)
    (now finish : Int) (force : Bool) (env : RemoteResult Refreshed)
    (h1 : g.hasVotingData = true) (h2 : g.isRefreshingBoostData = false) :
    (refreshBoostDataIfNeeded g st now finish force env).2.2 =
      (force || g.lastBoostDataRefresh == 0 || decide (st.availableTDH < 1)
        || decide (30000 < now - g.lastBoostDataRefresh)) := by
  simp only [refreshBoostDataIfNeeded]
  rw [if_neg (by simp [h1, h2])]
  cases env <;>
    cases hb : (force || g.lastBoostDataRefresh == 0 || decide (st.availableTDH < 1)
      || decide (30000 < now - g.lastBoostDataRefresh)) <;>
    rfl

theorem refresh_ok_eq {g : GuardState} (st : EngineState)
    (now finish : Int) (force : Bool) (r : Refreshed)
    (h1 : g.hasVotingData = true) (h2 : g.isRefreshingBoostData = false)
    (h3 : (force || g.lastBoostDataRefresh == 0 || decide (st.availableTDH < 1)
        || decide (30000 < now - g.lastBoostDataRefresh)) = true) :
    refreshBoostDataIfNeeded g st now finish force (.ok r) =
      ({ g with lastBoostDataRefresh := finish, isRefreshingBoostData := false },
        mergeRefreshedUserData st r, true) := by
  unfold refreshBoostDataIfNeeded
  rw [if_neg (by simp [h1, h2]), if_neg (by simp [h3])]

theorem refresh_err_eq {g : GuardState} (st : EngineState)
    (now finish : Int) (force : Bool) (m : String)
    (h1 : g.hasVotingData = true) (h2 : g.isRefreshingBoostData = false)
    (h3 : (force || g.lastBoostDataRefresh == 0 || decide (st.availableTDH < 1)
        || decide (30000 < now - g.lastBoostDataRefresh)) = true) :
    refreshBoostDataIfNeeded g st now finish force (.err m) =
      ({ g with isRefreshingBoostData := false },
        { st with availableTDH := 0 }, true) := by
  unfold refreshBoostDataIfNeeded
  rw [if_neg (by simp [h1, h2]), if_neg (by simp [h3])]

theorem repStep_counter_mono (st : EngineState) (op : RepOp) :
    st.repDataRequestId ≤ (repStep st op).repDataRequestId := by
  cases op with
  | issue => simp [repStep, issueRepRequest]
  | respond rid res =>
      cases res with
      | ok v =>
          obtain ⟨a, c⟩ := v
          simp only [repStep, applyRepResponse]
          split
          · exact le_refl _
          · exact le_refl _
      | err m =>
          simp only [repStep, applyRepResponse]
          split
          · exact le_refl _
          · exact le_refl _

theorem repRun_counter_mono (st : EngineState) (ops : List RepOp) :
    st.repDataRequestId ≤ (repRun st ops).repDataRequestId := by
  induction ops generalizing st with
  | nil => exact le_refl _
  | cons op rest ih =>
      exact le_trans (repStep_counter_mono st op) (ih (repStep st op))

theorem repRun_counter_issue (st : EngineState) (ops : List RepOp)
    (h : RepOp.issue ∈ ops) :
    st.repDataRequestId + 1 ≤ (repRun st ops).repDataRequestId := by
  induction ops generalizing st with
  | nil => cases h
  | cons op rest ih =>
      show st.repDataRequestId + 1 ≤ (repRun (repStep st op) rest).repDataRequestId
      rcases List.mem_cons.mp h with h1 | h1
      · subst h1
        have h3 : (repStep st RepOp.issue).repDataRequestId = st.repDataRequestId + 1 := rfl
        have h2 := repRun_counter_mono (repStep st RepOp.issue) rest
        omega
      · have h2 := repStep_counter_mono st op
        have h3 := ih (repStep st op) h1
        omega

/-! ## Branch-equation lemmas for the mutation flows -/

theorem boost_insufficient1_eq (st : EngineState) (env : BoostEnv)
    (h : calculateBoostAmount st.availableTDH < 1) :
    boostCurrentSubmission st env = (st, .insufficient, []) := by
  simp only [boostCurrentSubmission]
  rw [if_pos h]

theorem boost_insufficient2_eq (st : EngineState) (env : BoostEnv)
    (h1 : ¬calculateBoostAmount st.availableTDH < 1)
    (h2 : boostNewTotal st - st.votedForSub < 1) :
    boostCurrentSubmission st env = (st, .insufficient, []) := by
  simp only [boostCurrentSubmission]
  rw [if_neg h1, if_pos (by simp only [boostNewTotal] at h2; exact h2)]

theorem boost_ok_eq (st : EngineState) (env : BoostEnv) (r : Refreshed)
    (h1 : ¬calculateBoostAmount st.availableTDH < 1)
    (h2 : ¬boostNewTotal st - st.votedForSub < 1)
    (hs : env.submit1 = .ok ()) (hr : env.refresh1 = .ok r) :
    boostCurrentSubmission st env =
      (updateIdentityInfoDisplay r.votedForSub r.availableTDH
          (mergeRefreshedUserData
            (updateIdentityInfoDisplay (boostNewTotal st)
              (st.availableTDH - (boostNewTotal st - st.votedForSub)) st) r),
        .success,
        [Ev.submitCall (boostNewTotal st), Ev.refreshCall, Ev.setAvailTDH r.availableTDH]) := by
  obtain ⟨s1, r1, a, s2, r2⟩ := env
  cases hs
  cases hr
  simp only [boostCurrentSubmission]
  rw [if_neg h1, if_neg (by simp only [boostNewTotal] at h2; exact h2)]
  rfl

theorem boost_refreshErr_eq (st : EngineState) (env : BoostEnv) (m : String)
    (h1 : ¬calculateBoostAmount st.availableTDH < 1)
    (h2 : ¬boostNewTotal st - st.votedForSub < 1)
    (hs : env.submit1 = .ok ()) (hr : env.refresh1 = .err m) :
    boostCurrentSubmission st env =
      boostCatch (updateIdentityInfoDisplay (boostNewTotal st)
          (st.availableTDH - (boostNewTotal st - st.votedForSub)) st)
        env st.votedForSub st.availableTDH (boostNewTotal st) m
        [Ev.submitCall (boostNewTotal st), Ev.refreshCall] := by
  obtain ⟨s1, r1, a, s2, r2⟩ := env
  cases hs
  cases hr
  simp only [boostCurrentSubmission]
  rw [if_neg h1, if_neg (by simp only [boostNewTotal] at h2; exact h2)]
  rfl

theorem boost_submitErr_eq (st : EngineState) (env : BoostEnv) (m : String)
    (h1 : ¬calculateBoostAmount st.availableTDH < 1)
    (h2 : ¬boostNewTotal st - st.votedForSub < 1)
    (hs : env.submit1 = .err m) :
    boostCurrentSubmission st env =
      boostCatch (updateIdentityInfoDisplay (boostNewTotal st)
          (st.availableTDH - (boostNewTotal st - st.votedForSub)) st)
        env st.votedForSub st.availableTDH (boostNewTotal st) m
        [Ev.submitCall (boostNewTotal st)] := by
  obtain ⟨s1, r1, a, s2, r2⟩ := env
  cases hs
  simp only [boostCurrentSubmission]
  rw [if_neg h1, if_neg (by simp only [boostNewTotal] at h2; exact h2)]
  rfl

theorem boostCatch_nonauth_eq (st : EngineState) (env : BoostEnv) (c a n : Int)
    (m : String) (log : List Ev) (hm : isAuthMessage m = false) :
    boostCatch st env c a n m log =
      ({ updateIdentityInfoDisplay c a st with availableTDH := 0 }, .failed m,
        log ++ [Ev.setAvailTDH 0]) := by
  simp only [boostCatch]
  rw [if_neg (by simp [hm])]

theorem boostCatch_authErr_eq (st : EngineState) (env : BoostEnv) (c a n : Int)
    (m e : String) (log : List Ev) (hm : isAuthMessage m = true)
    (ha : env.auth = .err e) :
    boostCatch st env c a n m log =
      (updateIdentityInfoDisplay c a
          { updateIdentityInfoDisplay c a st with availableTDH := 0 },
        .sessionExpired, (log ++ [Ev.setAvailTDH 0]) ++ [Ev.authCall]) := by
  obtain ⟨s1, r1, aa, s2, r2⟩ := env
  cases ha
  simp only [boostCatch]
  rw [if_pos hm]

theorem boostCatch_retrySubmitErr_eq (st : EngineState) (env : BoostEnv) (c a n : Int)
    (m e : String) (log : List Ev) (hm : isAuthMessage m = true)
    (ha : env.auth = .ok ()) (hs2 : env.submit2 = .err e) :
    boostCatch st env c a n m log =
      (updateIdentityInfoDisplay c a
          { updateIdentityInfoDisplay c a st with availableTDH := 0 },
        .sessionExpired,
        (log ++ [Ev.setAvailTDH 0]) ++ [Ev.authCall, Ev.submitCall n]) := by
  obtain ⟨s1, r1, aa, s2, r2⟩ := env
  cases ha
  cases hs2
  simp only [boostCatch]
  rw [if_pos hm]

theorem boostCatch_retryRefreshErr_eq (st : EngineState) (env : BoostEnv) (c a n : Int)
    (m e : String) (log : List Ev) (hm : isAuthMessage m = true)
    (ha : env.auth = .ok ()) (hs2 : env.submit2 = .ok ()) (hr2 : env.refresh2 = .err e) :
    boostCatch st env c a n m log =
      (updateIdentityInfoDisplay c a
          { updateIdentityInfoDisplay c a st with availableTDH := 0 },
        .sessionExpired,
        (log ++ [Ev.setAvailTDH 0]) ++ [Ev.authCall, Ev.submitCall n, Ev.refreshCall]) := by
  obtain ⟨s1, r1, aa, s2, r2⟩ := env
  cases ha
  cases hs2
  cases hr2
  simp only [boostCatch]
  rw [if_pos hm]

theorem boostCatch_retryOk_eq (st : EngineState) (env : BoostEnv) (c a n : Int)
    (m : String) (log : List Ev) (r : Refreshed) (hm : isAuthMessage m = true)
    (ha : env.auth = .ok ()) (hs2 : env.submit2 = .ok ()) (hr2 : env.refresh2 = .ok r) :
    boostCatch st env c a n m log =
      (updateIdentityInfoDisplay r.votedForSub r.availableTDH
          (mergeRefreshedUserData
            { updateIdentityInfoDisplay c a st with availableTDH := 0 } r),
        .success,
        (log ++ [Ev.setAvailTDH 0]) ++
          [Ev.authCall, Ev.submitCall n, Ev.refreshCall, Ev.setAvailTDH r.availableTDH]) := by
  obtain ⟨s1, r1, aa, s2, r2⟩ := env
  cases ha
  cases hs2
  cases hr2
  simp only [boostCatch]
  rw [if_pos hm]

theorem vote_invalid_eq (st : EngineState) (env : VoteEnv) (h : st.stagedVote ≤ 0) :
    submitVote st env = (resetTDHSliderState st, .invalidAmount, []) := by
  simp only [submitVote]
  rw [if_pos h]

theorem vote_ok_eq (st : EngineState) (env : VoteEnv) (r : Refreshed)
    (h : ¬st.stagedVote ≤ 0) (hs : env.submit1 = .ok ()) (hr : env.refresh1 = .ok r) :
    submitVote st env =
      (updateTDHSlider r.votedForSub r.availableTDH
          (updateIdentityInfoDisplay r.votedForSub r.availableTDH
            (mergeRefreshedUserData st r)),
        .success,
        [Ev.submitCall st.stagedVote, Ev.refreshCall, Ev.setAvailTDH r.availableTDH]) := by
  obtain ⟨s1, r1, a, s2, r2⟩ := env
  cases hs
  cases hr
  simp only [submitVote]
  rw [if_neg h]

theorem vote_refreshErr_eq (st : EngineState) (env : VoteEnv) (m : String)
    (h : ¬st.stagedVote ≤ 0) (hs : env.submit1 = .ok ()) (hr : env.refresh1 = .err m) :
    submitVote st env =
      voteCatch st env st.stagedVote m [Ev.submitCall st.stagedVote, Ev.refreshCall] := by
  obtain ⟨s1, r1, a, s2, r2⟩ := env
  cases hs
  cases hr
  simp only [submitVote]
  rw [if_neg h]

theorem vote_submitErr_eq (st : EngineState) (env : VoteEnv) (m : String)
    (h : ¬st.stagedVote ≤ 0) (hs : env.submit1 = .err m) :
    submitVote st env =
      voteCatch st env st.stagedVote m [Ev.submitCall st.stagedVote] := by
  obtain ⟨s1, r1, a, s2, r2⟩ := env
  cases hs
  simp only [submitVote]
  rw [if_neg h]

theorem voteCatch_nonauth_eq (st : EngineState) (env : VoteEnv) (v : Int)
    (m : String) (log : List Ev) (hm : isAuthMessage m = false) :
    voteCatch st env v m log = (st, .failed m, log) := by
  simp only [voteCatch]
  rw [if_neg (by simp [hm])]

theorem voteCatch_authErr_eq (st : EngineState) (env : VoteEnv) (v : Int)
    (m e : String) (log : List Ev) (hm : isAuthMessage m = true)
    (ha : env.auth = .err e) :
    voteCatch st env v m log = (st, .sessionExpired, log ++ [Ev.authCall]) := by
  obtain ⟨s1, r1, aa, s2, r2⟩ := env
  cases ha
  simp only [voteCatch]
  rw [if_pos hm]

theorem voteCatch_retrySubmitErr_eq (st : EngineState) (env : VoteEnv) (v : Int)
    (m e : String) (log : List Ev) (hm : isAuthMessage m = true)
    (ha : env.auth = .ok ()) (hs2 : env.submit2 = .err e) :
    voteCatch st env v m log =
      (st, .sessionExpired, log ++ [Ev.authCall, Ev.submitCall v]) := by
  obtain ⟨s1, r1, aa, s2, r2⟩ := env
  cases ha
  cases hs2
  simp only [voteCatch]
  rw [if_pos hm]

theorem voteCatch_retryRefreshErr_eq (st : EngineState) (env : VoteEnv) (v : Int)
    (m e : String) (log : List Ev) (hm : isAuthMessage m = true)
    (ha : env.auth = .ok ()) (hs2 : env.submit2 = .ok ()) (hr2 : env.refresh2 = .err e) :
    voteCatch st env v m log =
      (st, .sessionExpired, log ++ [Ev.authCall, Ev.submitCall v, Ev.refreshCall]) := by
  obtain ⟨s1, r1, aa, s2, r2⟩ := env
  cases ha
  cases hs2
  cases hr2
  simp only [voteCatch]
  rw [if_pos hm]

theorem voteCatch_retryOk_eq (st : EngineState) (env : VoteEnv) (v : Int)
    (m : String) (log : List Ev) (r : Refreshed) (hm : isAuthMessage m = true)
    (ha : env.auth = .ok ()) (hs2 : env.submit2 = .ok ()) (hr2 : env.refresh2 = .ok r) :
    voteCatch st env v m log =
      (updateTDHSlider r.votedForSub r.availableTDH
          (updateIdentityInfoDisplay r.votedForSub r.availableTDH
            (mergeRefreshedUserData st r)),
        .success,
        log ++ [Ev.authCall, Ev.submitCall v, Ev.refreshCall,
                Ev.setAvailTDH r.availableTDH]) := by
  obtain ⟨s1, r1, aa, s2, r2⟩ := env
  cases ha
  cases hs2
  cases hr2
  simp only [voteCatch]
  rw [if_pos hm]

theorem rep_insufficient_eq (st : EngineState) (env : RepEnv)
    (h : max 0 (st.pendingRepAssignment - max 0 st.currentRepTotalAssigned) >
      st.availableRepCredit) :
    assignRepToCurrentSubmission st env = (st, .insufficientRep, []) := by
  simp only [assignRepToCurrentSubmission]
  rw [if_pos h]

theorem rep_ok_eq (st : EngineState) (env : RepEnv)
    (h : ¬max 0 (st.pendingRepAssignment - max 0 st.currentRepTotalAssigned) >
      st.availableRepCredit)
    (ha : env.assign = .ok ()) :
    assignRepToCurrentSubmission st env =
      ((updateRepDataForSubmission
          (updateRepSlider st.pendingRepAssignment
            (st.availableRepCredit -
              max 0 (st.pendingRepAssignment - max 0 st.currentRepTotalAssigned) +
              max 0 (max 0 st.currentRepTotalAssigned - st.pendingRepAssignment))
            { st with
              availableRepCredit := st.availableRepCredit -
                max 0 (st.pendingRepAssignment - max 0 st.currentRepTotalAssigned) +
                max 0 (max 0 st.currentRepTotalAssigned - st.pendingRepAssignment),
              currentRepTotalAssigned := st.pendingRepAssignment })
          env.refetch1).1,
        .success,
        [Ev.assignRepCall st.pendingRepAssignment, Ev.repFetchCall]) := by
  obtain ⟨a, f1, f2⟩ := env
  cases ha
  simp only [assignRepToCurrentSubmission]
  rw [if_neg h]
  rfl

theorem rep_err_eq (st : EngineState) (env : RepEnv) (m : String)
    (h : ¬max 0 (st.pendingRepAssignment - max 0 st.currentRepTotalAssigned) >
      st.availableRepCredit)
    (ha : env.assign = .err m) :
    assignRepToCurrentSubmission st env =
      ((updateRepDataForSubmission st env.refetch2).1, .failed,
        [Ev.assignRepCall st.pendingRepAssignment, Ev.repFetchCall]) := by
  obtain ⟨a, f1, f2⟩ := env
  cases ha
  simp only [assignRepToCurrentSubmission]
  rw [if_neg h]
  rfl

/-! ## Claims about the guard, the generation counter and vote validation (C7 - C9) -/

/-- C7: the refresh guard performs a network refresh iff no refresh is in flight
and (force, or never refreshed, or `availableTDH < 1`, or more than 30000 ms have
elapsed); in-flight requests collapse to no-ops; a forced request refreshes when
none is in flight; and a second non-forced request within 30000 ms of a
successful refresh (that left at least 1 available credit) is a no-op. -/
theorem refresh_guard_iff :
    (∀ (g : GuardState) (st : EngineState) (now finish : Int) (force : Bool)
        (env : RemoteResult Refreshed),
      g.hasVotingData = true →
      ((refreshBoostDataIfNeeded g st now finish force env).2.2 = true ↔
        (g.isRefreshingBoostData = false ∧
          (force = true ∨ g.lastBoostDataRefresh = 0 ∨ st.availableTDH < 1 ∨
            30000 < now - g.lastBoostDataRefresh)))) ∧
    (∀ (g : GuardState) (st : EngineState) (now finish : Int) (force : Bool)
        (env : RemoteResult Refreshed),
      g.isRefreshingBoostData = true →
      (refreshBoostDataIfNeeded g st now finish force env).2.2 = false) ∧
    (∀ (g : GuardState) (st : EngineState) (now finish : Int)
        (env : RemoteResult Refreshed),
      g.hasVotingData = true → g.isRefreshingBoostData = false →
      (refreshBoostDataIfNeeded g st now finish true env).2.2 = true) ∧
    (∀ (g : GuardState) (st : EngineState) (now1 finish1 now2 finish2 : Int)
        (r : Refreshed) (env2 : RemoteResult Refreshed),
      g.hasVotingData = true → g.isRefreshingBoostData = false →
      (refreshBoostDataIfNeeded g st now1 finish1 false (.ok r)).2.2 = true →
      0 < finish1 → 1 ≤ r.availableTDH → now2 - finish1 ≤ 30000 →
      (refreshBoostDataIfNeeded
          (refreshBoostDataIfNeeded g st now1 finish1 false (.ok r)).1
          (refreshBoostDataIfNeeded g st now1 finish1 false (.ok r)).2.1
          now2 finish2 false env2).2.2 = false) := by
  have hiff : ∀ (g : GuardState) (st : EngineState) (now finish : Int) (force : Bool)
      (env : RemoteResult Refreshed),
      g.hasVotingData = true →
      ((refreshBoostDataIfNeeded g st now finish force env).2.2 = true ↔
        (g.isRefreshingBoostData = false ∧
          (force = true ∨ g.lastBoostDataRefresh = 0 ∨ st.availableTDH < 1 ∨
            30000 < now - g.lastBoostDataRefresh))) := by
    intro g st now finish force env h1
    by_cases h2 : g.isRefreshingBoostData = true
    · rw [refresh_skip_of_inflight st now finish force env h2]
      simp [h2]
    · simp only [Bool.not_eq_true] at h2
      rw [refresh_did_eq st now finish force env h1 h2]
      simp only [Bool.or_eq_true, beq_iff_eq, decide_eq_true_iff, h2, true_and]
      tauto
  refine ⟨hiff, ?_, ?_, ?_⟩
  · intro g st now finish force env h
    rw [refresh_skip_of_inflight st now finish force env h]
  · intro g st now finish env h1 h2
    exact (hiff g st now finish true env h1).mpr ⟨h2, Or.inl rfl⟩
  · intro g st now1 finish1 now2 finish2 r env2 h1 h2 hdid hfin havail hwithin
    have hsr := (hiff g st now1 finish1 false (.ok r) h1).mp hdid
    have hsr2 : (false || g.lastBoostDataRefresh == 0 || decide (st.availableTDH < 1)
        || decide (30000 < now1 - g.lastBoostDataRefresh)) = true := by
      rcases hsr.2 with h | h | h | h
      · cases h
      · simp [h]
      · simp [h]
      · simp [h]
    rw [refresh_ok_eq st now1 finish1 false r h1 h2 hsr2]
    rw [refresh_did_eq _ now2 finish2 false env2 (by exact h1) rfl]
    simp only [mergeRefreshedUserData, Bool.false_or]
    have e0 : (finish1 == (0 : Int)) = false := by
      simp [beq_iff_eq]
      omega
    rw [e0]
    simp only [Bool.false_or, Bool.or_eq_false_iff, decide_eq_false_iff_not]
    constructor
    · omega
    · omega

/-- Witness for `refresh_guard_iff`: with a session present and a refresh already
in flight, a forced request is still a no-op. -/
theorem refresh_guard_iff_witness :
    (refreshBoostDataIfNeeded
        { hasVotingData := true, isRefreshingBoostData := true, lastBoostDataRefresh := 0 }
        sampleState 5000 6000 true (RemoteResult.err msgNetwork)).2.2 = false :=
  refresh_guard_iff.2.1
    { hasVotingData := true, isRefreshingBoostData := true, lastBoostDataRefresh := 0 }
    sampleState 5000 6000 true (RemoteResult.err msgNetwork) rfl

/-- C8: generation tokens are issued as a strictly increasing counter (and no
operation ever decreases it), and once a later generation has been issued, a
response tagged with an earlier token is discarded: applying it (success or
failure alike) leaves the state unchanged. -/
theorem generation_guard :
    (∀ (st : EngineState) (ops : List RepOp),
      st.repDataRequestId ≤ (repRun st ops).repDataRequestId) ∧
    (∀ st : EngineState,
      (issueRepRequest st).2 = st.repDataRequestId + 1 ∧
      ((issueRepRequest st).1).repDataRequestId = (issueRepRequest st).2) ∧
    (∀ (st : EngineState) (ops : List RepOp) (res : RemoteResult (Int × Int)),
      RepOp.issue ∈ ops →
      applyRepResponse (repRun (issueRepRequest st).1 ops) (issueRepRequest st).2 res =
        repRun (issueRepRequest st).1 ops) := by
  refine ⟨repRun_counter_mono, fun st => ⟨rfl, rfl⟩, ?_⟩
  intro st ops res h
  have h1 := repRun_counter_issue (issueRepRequest st).1 ops h
  have h2 : (issueRepRequest st).1.repDataRequestId = st.repDataRequestId + 1 := rfl
  have htok : (issueRepRequest st).2 ≠ (repRun (issueRepRequest st).1 ops).repDataRequestId := by
    have h3 : (issueRepRequest st).2 = st.repDataRequestId + 1 := rfl
    omega
  cases res with
  | ok v =>
      obtain ⟨a, c⟩ := v
      simp only [applyRepResponse]
      rw [if_pos htok]
  | err m =>
      simp only [applyRepResponse]
      rw [if_pos htok]

/-- Witness for `generation_guard`: after one further issue, a response tagged
with the earlier token is a no-op. -/
theorem generation_guard_witness :
    applyRepResponse (repRun (issueRepRequest sampleState).1 [RepOp.issue])
        (issueRepRequest sampleState).2 (RemoteResult.ok (5, 45)) =
      repRun (issueRepRequest sampleState).1 [RepOp.issue] :=
  generation_guard.2.2 sampleState [RepOp.issue] (RemoteResult.ok (5, 45)) (by simp)

/-- C9: a staged vote amount `≤ 0` fails immediately with the validation error,
performs no network call, and leaves the credit ledger (assigned totals and
available credit of both pools) unchanged — so repeated invocations are safe. -/
theorem vote_validation_noop (st : EngineState) (env : VoteEnv)
    (h : st.stagedVote ≤ 0) :
    (submitVote st env).2.1 = VoteOutcome.invalidAmount ∧
    (submitVote st env).2.2 = [] ∧
    (submitVote st env).1.availableTDH = st.availableTDH ∧
    (submitVote st env).1.votedForSub = st.votedForSub ∧
    (submitVote st env).1.availableRepCredit = st.availableRepCredit ∧
    (submitVote st env).1.currentRepTotalAssigned = st.currentRepTotalAssigned := by
  simp only [submitVote]
  rw [if_pos h]
  exact ⟨rfl, rfl, rfl, rfl, rfl, rfl⟩

/-- Witness for `vote_validation_noop` at the concrete zero-staged state. -/
theorem vote_validation_noop_witness :
    sampleStateZeroVote.stagedVote ≤ 0 ∧
    (submitVote sampleStateZeroVote venvAllOk).2.1 = VoteOutcome.invalidAmount ∧
    (submitVote sampleStateZeroVote venvAllOk).2.2 = [] ∧
    (submitVote sampleStateZeroVote venvAllOk).1.availableTDH =
      sampleStateZeroVote.availableTDH ∧
    (submitVote sampleStateZeroVote venvAllOk).1.votedForSub =
      sampleStateZeroVote.votedForSub ∧
    (submitVote sampleStateZeroVote venvAllOk).1.availableRepCredit =
      sampleStateZeroVote.availableRepCredit ∧
    (submitVote sampleStateZeroVote venvAllOk).1.currentRepTotalAssigned =
      sampleStateZeroVote.currentRepTotalAssigned :=
  ⟨by decide, vote_validation_noop sampleStateZeroVote venvAllOk (by decide)⟩

/-! ## Log-shape lemmas for the mutation flows -/

theorem boostCatch_log_shape (st : EngineState) (env : BoostEnv) (c a n : Int)
    (m : String) (log : List Ev) :
    authCount (boostCatch st env c a n m log).2.2 ≤ authCount log + 1 ∧
    submitCount (boostCatch st env c a n m log).2.2 ≤ submitCount log + 1 ∧
    (∀ k, Ev.submitCall k ∈ (boostCatch st env c a n m log).2.2 →
      Ev.submitCall k ∈ log ∨ k = n) := by
  by_cases hm : isAuthMessage m = true
  · rcases hauth : env.auth with ⟨⟩ | e
    · rcases hs2 : env.submit2 with ⟨⟩ | e
      · rcases hr2 : env.refresh2 with r | e
        · rw [boostCatch_retryOk_eq st env c a n m log r hm hauth hs2 hr2]
          refine ⟨?_, ?_, ?_⟩
          · simp [authCount, List.countP_append, List.countP_cons, isAuthEv, isSubmitEv]
          · simp [submitCount, List.countP_append, List.countP_cons, isAuthEv, isSubmitEv]
          · intro k hk
            simp only [List.mem_append, List.mem_cons, List.mem_singleton,
              List.not_mem_nil, or_false] at hk
            rcases hk with (hk | hk) | hk | hk | hk | hk <;> simp_all
        · rw [boostCatch_retryRefreshErr_eq st env c a n m e log hm hauth hs2 hr2]
          refine ⟨?_, ?_, ?_⟩
          · simp [authCount, List.countP_append, List.countP_cons, isAuthEv, isSubmitEv]
          · simp [submitCount, List.countP_append, List.countP_cons, isAuthEv, isSubmitEv]
          · intro k hk
            simp only [List.mem_append, List.mem_cons, List.mem_singleton,
              List.not_mem_nil, or_false] at hk
            rcases hk with (hk | hk) | hk | hk | hk <;> simp_all
      · rw [boostCatch_retrySubmitErr_eq st env c a n m e log hm hauth hs2]
        refine ⟨?_, ?_, ?_⟩
        · simp [authCount, List.countP_append, List.countP_cons, isAuthEv, isSubmitEv]
        · simp [submitCount, List.countP_append, List.countP_cons, isAuthEv, isSubmitEv]
        · intro k hk
          simp only [List.mem_append, List.mem_cons, List.mem_singleton,
            List.not_mem_nil, or_false] at hk
          rcases hk with (hk | hk) | hk | hk <;> simp_all
    · rw [boostCatch_authErr_eq st env c a n m e log hm hauth]
      refine ⟨?_, ?_, ?_⟩
      · simp [authCount, List.countP_append, List.countP_cons, isAuthEv, isSubmitEv]
      · simp [submitCount, List.countP_append, List.countP_cons, isAuthEv, isSubmitEv]
      · intro k hk
        simp only [List.mem_append, List.mem_cons, List.mem_singleton,
          List.not_mem_nil, or_false] at hk
        rcases hk with (hk | hk) | hk <;> simp_all
  · have hmf : isAuthMessage m = false := by simpa using hm
    rw [boostCatch_nonauth_eq st env c a n m log hmf]
    refine ⟨?_, ?_, ?_⟩
    · simp [authCount, List.countP_append, List.countP_cons, isAuthEv, isSubmitEv]
    · simp [submitCount, List.countP_append, List.countP_cons, isAuthEv, isSubmitEv]
    · intro k hk
      simp only [List.mem_append, List.mem_cons, List.mem_singleton,
        List.not_mem_nil, or_false] at hk
      rcases hk with hk | hk <;> simp_all

theorem voteCatch_log_shape (st : EngineState) (env : VoteEnv) (v : Int)
    (m : String) (log : List Ev) :
    authCount (voteCatch st env v m log).2.2 ≤ authCount log + 1 ∧
    submitCount (voteCatch st env v m log).2.2 ≤ submitCount log + 1 ∧
    (∀ k, Ev.submitCall k ∈ (voteCatch st env v m log).2.2 →
      Ev.submitCall k ∈ log ∨ k = v) := by
  by_cases hm : isAuthMessage m = true
  · rcases hauth : env.auth with ⟨⟩ | e
    · rcases hs2 : env.submit2 with ⟨⟩ | e
      · rcases hr2 : env.refresh2 with r | e
        · rw [voteCatch_retryOk_eq st env v m log r hm hauth hs2 hr2]
          refine ⟨?_, ?_, ?_⟩
          · simp [authCount, List.countP_append, List.countP_cons, isAuthEv, isSubmitEv]
          · simp [submitCount, List.countP_append, List.countP_cons, isAuthEv, isSubmitEv]
          · intro k hk
            simp only [List.mem_append, List.mem_cons, List.mem_singleton,
              List.not_mem_nil, or_false] at hk
            rcases hk with hk | hk | hk | hk | hk <;> simp_all
        · rw [voteCatch_retryRefreshErr_eq st env v m e log hm hauth hs2 hr2]
          refine ⟨?_, ?_, ?_⟩
          · simp [authCount, List.countP_append, List.countP_cons, isAuthEv, isSubmitEv]
          · simp [submitCount, List.countP_append, List.countP_cons, isAuthEv, isSubmitEv]
          · intro k hk
            simp only [List.mem_append, List.mem_cons, List.mem_singleton,
              List.not_mem_nil, or_false] at hk
            rcases hk with hk | hk | hk | hk <;> simp_all
      · rw [voteCatch_retrySubmitErr_eq st env v m e log hm hauth hs2]
        refine ⟨?_, ?_, ?_⟩
        · simp [authCount, List.countP_append, List.countP_cons, isAuthEv, isSubmitEv]
        · simp [submitCount, List.countP_append, List.countP_cons, isAuthEv, isSubmitEv]
        · intro k hk
          simp only [List.mem_append, List.mem_cons, List.mem_singleton,
            List.not_mem_nil, or_false] at hk
          rcases hk with hk | hk | hk <;> simp_all
    · rw [voteCatch_authErr_eq st env v m e log hm hauth]
      refine ⟨?_, ?_, ?_⟩
      · simp [authCount, List.countP_append, List.countP_cons, isAuthEv, isSubmitEv]
      · simp [submitCount, List.countP_append, List.countP_cons, isAuthEv, isSubmitEv]
      · intro k hk
        simp only [List.mem_append, List.mem_cons, List.mem_singleton,
          List.not_mem_nil, or_false] at hk
        rcases hk with hk | hk <;> simp_all
  · have hmf : isAuthMessage m = false := by simpa using hm
    rw [voteCatch_nonauth_eq st env v m log hmf]
    refine ⟨?_, ?_, ?_⟩
    · exact le_trans (le_refl _) (Nat.le_add_right _ 1)
    · exact le_trans (le_refl _) (Nat.le_add_right _ 1)
    · intro k hk
      exact Or.inl hk

theorem boost_log_shape (st : EngineState) (env : BoostEnv) :
    authCount (boostCurrentSubmission st env).2.2 ≤ 1 ∧
    submitCount (boostCurrentSubmission st env).2.2 ≤ 2 ∧
    (∀ k, Ev.submitCall k ∈ (boostCurrentSubmission st env).2.2 → k = boostNewTotal st) := by
  by_cases h1 : calculateBoostAmount st.availableTDH < 1
  · rw [boost_insufficient1_eq st env h1]
    simp [authCount, submitCount]
  · by_cases h2 : boostNewTotal st - st.votedForSub < 1
    · rw [boost_insufficient2_eq st env h1 h2]
      simp [authCount, submitCount]
    · rcases hs : env.submit1 with ⟨⟩ | m
      · rcases hr : env.refresh1 with r | m
        · rw [boost_ok_eq st env r h1 h2 hs hr]
          refine ⟨?_, ?_, ?_⟩
          · simp [authCount, List.countP_cons, isAuthEv]
          · simp [submitCount, List.countP_cons, isSubmitEv]
          · intro k hk
            simp only [List.mem_cons, List.mem_singleton, List.not_mem_nil, or_false] at hk
            rcases hk with hk | hk | hk <;> simp_all
        · rw [boost_refreshErr_eq st env m h1 h2 hs hr]
          obtain ⟨ha, hsub, hmem⟩ := boostCatch_log_shape
            (updateIdentityInfoDisplay (boostNewTotal st)
              (st.availableTDH - (boostNewTotal st - st.votedForSub)) st)
            env st.votedForSub st.availableTDH (boostNewTotal st) m
            [Ev.submitCall (boostNewTotal st), Ev.refreshCall]
          refine ⟨?_, ?_, ?_⟩
          · have : authCount [Ev.submitCall (boostNewTotal st), Ev.refreshCall] = 0 := by
              simp [authCount, List.countP_cons, isAuthEv]
            omega
          · have : submitCount [Ev.submitCall (boostNewTotal st), Ev.refreshCall] = 1 := by
              simp [submitCount, List.countP_cons, isSubmitEv]
            omega
          · intro k hk
            rcases hmem k hk with hk2 | hk2
            · simp only [List.mem_cons, List.mem_singleton, List.not_mem_nil, or_false] at hk2
              rcases hk2 with hk2 | hk2 <;> simp_all
            · exact hk2
      · rw [boost_submitErr_eq st env m h1 h2 hs]
        obtain ⟨ha, hsub, hmem⟩ := boostCatch_log_shape
          (updateIdentityInfoDisplay (boostNewTotal st)
            (st.availableTDH - (boostNewTotal st - st.votedForSub)) st)
          env st.votedForSub st.availableTDH (boostNewTotal st) m
          [Ev.submitCall (boostNewTotal st)]
        refine ⟨?_, ?_, ?_⟩
        · have : authCount [Ev.submitCall (boostNewTotal st)] = 0 := by
            simp [authCount, List.countP_cons, isAuthEv]
          omega
        · have : submitCount [Ev.submitCall (boostNewTotal st)] = 1 := by
            simp [submitCount, List.countP_cons, isSubmitEv]
          omega
        · intro k hk
          rcases hmem k hk with hk2 | hk2
          · simp only [List.mem_singleton] at hk2
            simp_all
          · exact hk2

theorem vote_log_shape (st : EngineState) (env : VoteEnv) :
    authCount (submitVote st env).2.2 ≤ 1 ∧
    submitCount (submitVote st env).2.2 ≤ 2 ∧
    (∀ k, Ev.submitCall k ∈ (submitVote st env).2.2 → k = st.stagedVote) := by
  by_cases h : st.stagedVote ≤ 0
  · rw [vote_invalid_eq st env h]
    simp [authCount, submitCount]
  · rcases hs : env.submit1 with ⟨⟩ | m
    · rcases hr : env.refresh1 with r | m
      · rw [vote_ok_eq st env r h hs hr]
        refine ⟨?_, ?_, ?_⟩
        · simp [authCount, List.countP_cons, isAuthEv]
        · simp [submitCount, List.countP_cons, isSubmitEv]
        · intro k hk
          simp only [List.mem_cons, List.mem_singleton, List.not_mem_nil, or_false] at hk
          rcases hk with hk | hk | hk <;> simp_all
      · rw [vote_refreshErr_eq st env m h hs hr]
        obtain ⟨ha, hsub, hmem⟩ := voteCatch_log_shape st env st.stagedVote m
          [Ev.submitCall st.stagedVote, Ev.refreshCall]
        refine ⟨?_, ?_, ?_⟩
        · have : authCount [Ev.submitCall st.stagedVote, Ev.refreshCall] = 0 := by
            simp [authCount, List.countP_cons, isAuthEv]
          omega
        · have : submitCount [Ev.submitCall st.stagedVote, Ev.refreshCall] = 1 := by
            simp [submitCount, List.countP_cons, isSubmitEv]
          omega
        · intro k hk
          rcases hmem k hk with hk2 | hk2
          · simp only [List.mem_cons, List.mem_singleton, List.not_mem_nil, or_false] at hk2
            rcases hk2 with hk2 | hk2 <;> simp_all
          · exact hk2
    · rw [vote_submitErr_eq st env m h hs]
      obtain ⟨ha, hsub, hmem⟩ := voteCatch_log_shape st env st.stagedVote m
        [Ev.submitCall st.stagedVote]
      refine ⟨?_, ?_, ?_⟩
      · have : authCount [Ev.submitCall st.stagedVote] = 0 := by
          simp [authCount, List.countP_cons, isAuthEv]
        omega
      · have : submitCount [Ev.submitCall st.stagedVote] = 1 := by
          simp [submitCount, List.countP_cons, isSubmitEv]
        omega
      · intro k hk
        rcases hmem k hk with hk2 | hk2
        · simp only [List.mem_singleton] at hk2
          simp_all
        · exact hk2

theorem rep_log_shape (st : EngineState) (env : RepEnv) :
    authCount (assignRepToCurrentSubmission st env).2.2 = 0 ∧
    submitCount (assignRepToCurrentSubmission st env).2.2 = 0 ∧
    assignCount (assignRepToCurrentSubmission st env).2.2 ≤ 1 := by
  by_cases h : max 0 (st.pendingRepAssignment - max 0 st.currentRepTotalAssigned) >
      st.availableRepCredit
  · rw [rep_insufficient_eq st env h]
    simp [authCount, submitCount, assignCount]
  · rcases ha : env.assign with ⟨⟩ | m
    · rw [rep_ok_eq st env h ha]
      refine ⟨?_, ?_, ?_⟩
      · simp [authCount, List.countP_cons, isAuthEv]
      · simp [submitCount, List.countP_cons, isSubmitEv]
      · simp [assignCount, List.countP_cons, isAssignEv]
    · rw [rep_err_eq st env m h ha]
      refine ⟨?_, ?_, ?_⟩
      · simp [authCount, List.countP_cons, isAuthEv]
      · simp [submitCount, List.countP_cons, isSubmitEv]
      · simp [assignCount, List.countP_cons, isAssignEv]

/-! ## Claims about failure handling (C1, C2, C10) -/

/-- C10: whenever the boost submission fails — any error class — the stored
available TDH credit is set to 0 before any re-authentication event, and on every
failure path that does not complete the full retry (non-auth message, failed
re-auth, failed retry submit, failed retry refresh) it stays 0 while only the
displayed totals are reverted to the pre-mutation values; any executed refresh
that fails likewise zeroes the stored available TDH. -/
theorem boost_failure_zeroes_availableTDH :
    (∀ (st : EngineState) (env : BoostEnv) (m : String),
      ¬calculateBoostAmount st.availableTDH < 1 →
      ¬boostNewTotal st - st.votedForSub < 1 →
      env.submit1 = .err m →
      (∃ pre post,
        (boostCurrentSubmission st env).2.2 = pre ++ Ev.setAvailTDH 0 :: post ∧
        Ev.authCall ∉ pre) ∧
      (isAuthMessage m = false →
        (boostCurrentSubmission st env).1.availableTDH = 0 ∧
        (boostCurrentSubmission st env).1.displayTDH = st.votedForSub ∧
        (boostCurrentSubmission st env).1.displayRep = st.availableTDH) ∧
      (∀ e, env.auth = .err e →
        (boostCurrentSubmission st env).1.availableTDH = 0 ∧
        (boostCurrentSubmission st env).1.displayTDH = st.votedForSub ∧
        (boostCurrentSubmission st env).1.displayRep = st.availableTDH) ∧
      (∀ e, env.auth = .ok () → env.submit2 = .err e →
        (boostCurrentSubmission st env).1.availableTDH = 0) ∧
      (∀ e, env.auth = .ok () → env.submit2 = .ok () → env.refresh2 = .err e →
        (boostCurrentSubmission st env).1.availableTDH = 0)) ∧
    (∀ (g : GuardState) (st : EngineState) (now finish : Int) (force : Bool) (m : String),
      (refreshBoostDataIfNeeded g st now finish force (.err m)).2.2 = true →
      (refreshBoostDataIfNeeded g st now finish force (.err m)).2.1.availableTDH = 0) := by
  constructor
  · intro st env m h1 h2 hs
    rw [boost_submitErr_eq st env m h1 h2 hs]
    by_cases hm : isAuthMessage m = true
    · rcases hauth : env.auth with ⟨⟩ | e0
      · rcases hs2 : env.submit2 with ⟨⟩ | e0
        · rcases hr2 : env.refresh2 with r | e0
          · rw [boostCatch_retryOk_eq _ env _ _ _ m _ r hm hauth hs2 hr2]
            refine ⟨⟨[Ev.submitCall (boostNewTotal st)], _, rfl, by simp⟩, ?_, ?_, ?_, ?_⟩
            · intro hmf; simp [hm] at hmf
            · intro e he; exact absurd he (by simp)
            · intro e _ he2; exact absurd he2 (by simp)
            · intro e _ _ her; exact absurd her (by simp)
          · rw [boostCatch_retryRefreshErr_eq _ env _ _ _ m e0 _ hm hauth hs2 hr2]
            refine ⟨⟨[Ev.submitCall (boostNewTotal st)], _, rfl, by simp⟩, ?_, ?_, ?_, ?_⟩
            · intro hmf; simp [hm] at hmf
            · intro e he; exact absurd he (by simp)
            · intro e _ he2; exact absurd he2 (by simp)
            · intro e _ _ _; rfl
        · rw [boostCatch_retrySubmitErr_eq _ env _ _ _ m e0 _ hm hauth hs2]
          refine ⟨⟨[Ev.submitCall (boostNewTotal st)], _, rfl, by simp⟩, ?_, ?_, ?_, ?_⟩
          · intro hmf; simp [hm] at hmf
          · intro e he; exact absurd he (by simp)
          · intro e _ _; rfl
          · intro e _ he2 _; exact absurd he2 (by simp)
      · rw [boostCatch_authErr_eq _ env _ _ _ m e0 _ hm hauth]
        refine ⟨⟨[Ev.submitCall (boostNewTotal st)], _, rfl, by simp⟩, ?_, ?_, ?_, ?_⟩
        · intro hmf; simp [hm] at hmf
        · intro e _; exact ⟨rfl, rfl, rfl⟩
        · intro e hok; exact absurd hok (by simp)
        · intro e hok; exact absurd hok (by simp)
    · have hmf : isAuthMessage m = false := by simpa using hm
      rw [boostCatch_nonauth_eq _ env _ _ _ m _ hmf]
      refine ⟨⟨[Ev.submitCall (boostNewTotal st)], _, rfl, by simp⟩, ?_, ?_, ?_, ?_⟩
      · intro _; exact ⟨rfl, rfl, rfl⟩
      · intro e _; exact ⟨rfl, rfl, rfl⟩
      · intro e _ _; rfl
      · intro e _ _ _; rfl
  · intro g st now finish force m hdid
    by_cases h1 : g.hasVotingData = true
    · by_cases h2 : g.isRefreshingBoostData = false
      · have h3 := refresh_did_eq (g := g) st now finish force (.err m) h1 h2
        rw [refresh_err_eq st now finish force m h1 h2 (h3.symm.trans hdid)]
      · have h2' : g.isRefreshingBoostData = true := by simpa using h2
        rw [refresh_skip_of_inflight st now finish force (.err m) h2'] at hdid
        exact absurd hdid (by simp)
    · have h1' : g.hasVotingData = false := by simpa using h1
      rw [refresh_skip_of_noSession st now finish force (.err m) h1'] at hdid
      exact absurd hdid (by simp)

/-- Witness for `boost_failure_zeroes_availableTDH`: a boost over 50 available
TDH hit by a non-auth network failure leaves the stored available TDH at 0. -/
theorem boost_failure_zeroes_availableTDH_witness :
    (boostCurrentSubmission sampleState benvNetworkErr).1.availableTDH = 0 :=
  ((boost_failure_zeroes_availableTDH.1 sampleState benvNetworkErr msgNetwork
      (by decide) (by decide) rfl).2.1 (by decide)).1

/-- C2 counterexample: a Boost over `availableCredit = 50` that fails with a
non-authentication error does not restore the stored available credit to its
pre-mutation snapshot — the engine sets it to 0 instead. -/
theorem boost_rollback_cex :
    sampleState.availableTDH = 50 ∧
    isAuthMessage msgNetwork = false ∧
    (boostCurrentSubmission sampleState benvNetworkErr).2.1 = BoostOutcome.failed msgNetwork ∧
    (boostCurrentSubmission sampleState benvNetworkErr).1.availableTDH = 0 ∧
    (boostCurrentSubmission sampleState benvNetworkErr).1.availableTDH ≠
      sampleState.availableTDH := by
  decide

/-- C2 amended: on a non-auth failure after the optimistic update, Boost reverts
only the displayed totals to the pre-mutation snapshot and leaves the committed
total untouched, but sets the stored available TDH credit to 0 rather than
restoring it; a failed AssignRep restores nothing from a snapshot — it refetches
the authoritative rep data and adopts whatever that returns. -/
theorem rollback_behavior_amended :
    (∀ (st : EngineState) (env : BoostEnv) (m : String),
      ¬calculateBoostAmount st.availableTDH < 1 →
      ¬boostNewTotal st - st.votedForSub < 1 →
      env.submit1 = .err m → isAuthMessage m = false →
      (boostCurrentSubmission st env).1.displayTDH = st.votedForSub ∧
      (boostCurrentSubmission st env).1.displayRep = st.availableTDH ∧
      (boostCurrentSubmission st env).1.votedForSub = st.votedForSub ∧
      (boostCurrentSubmission st env).1.availableTDH = 0) ∧
    (∀ (st : EngineState) (env : RepEnv) (m : String),
      ¬max 0 (st.pendingRepAssignment - max 0 st.currentRepTotalAssigned) >
        st.availableRepCredit →
      env.assign = .err m →
      (assignRepToCurrentSubmission st env).1 =
        (updateRepDataForSubmission st env.refetch2).1) := by
  constructor
  · intro st env m h1 h2 hs hm
    rw [boost_submitErr_eq st env m h1 h2 hs, boostCatch_nonauth_eq _ env _ _ _ m _ hm]
    exact ⟨rfl, rfl, rfl, rfl⟩
  · intro st env m h ha
    rw [rep_err_eq st env m h ha]

/-- Witness for `rollback_behavior_amended` at the concrete failing boost. -/
theorem rollback_behavior_amended_witness :
    (boostCurrentSubmission sampleState benvNetworkErr).1.displayTDH =
      sampleState.votedForSub ∧
    (boostCurrentSubmission sampleState benvNetworkErr).1.displayRep =
      sampleState.availableTDH ∧
    (boostCurrentSubmission sampleState benvNetworkErr).1.votedForSub =
      sampleState.votedForSub ∧
    (boostCurrentSubmission sampleState benvNetworkErr).1.availableTDH = 0 :=
  rollback_behavior_amended.1 sampleState benvNetworkErr msgNetwork
    (by decide) (by decide) rfl (by decide)

/-- C1 counterexample: an AssignRep whose remote call fails with a message
containing both "401" and "Unauthorized" triggers no re-authentication and no
retry — the log holds exactly one assignment call and no auth call, and the
surfaced outcome is the generic failure, not a session-expired error. -/
theorem assignRep_no_reauth_cex :
    isAuthMessage msg401 = true ∧
    (assignRepToCurrentSubmission sampleState renv401).2.1 = RepOutcome.failed ∧
    authCount (assignRepToCurrentSubmission sampleState renv401).2.2 = 0 ∧
    assignCount (assignRepToCurrentSubmission sampleState renv401).2.2 = 1 ∧
    (assignRepToCurrentSubmission sampleState renv401).2.2 =
      [Ev.assignRepCall 10, Ev.repFetchCall] := by
  decide

/-- C1 amended: Boost and Vote attempt exactly one re-authentication on an
auth-classified failure and, when it succeeds, retry the identical mutation
exactly once (never more: every execution performs at most one auth call and at
most two submissions, all submissions carrying the same computed amount); if the
re-authentication or the retried submission fails they surface the
session-expired outcome (Boost reverting the displayed totals, Vote leaving the
state unchanged). AssignRep, by contrast, never re-authenticates and never
retries, whatever the error class. -/
theorem auth_retry_policy_amended :
    (∀ (st : EngineState) (env : BoostEnv),
      authCount (boostCurrentSubmission st env).2.2 ≤ 1 ∧
      submitCount (boostCurrentSubmission st env).2.2 ≤ 2 ∧
      (∀ k, Ev.submitCall k ∈ (boostCurrentSubmission st env).2.2 →
        k = boostNewTotal st)) ∧
    (∀ (st : EngineState) (env : VoteEnv),
      authCount (submitVote st env).2.2 ≤ 1 ∧
      submitCount (submitVote st env).2.2 ≤ 2 ∧
      (∀ k, Ev.submitCall k ∈ (submitVote st env).2.2 → k = st.stagedVote)) ∧
    (∀ (st : EngineState) (env : RepEnv),
      authCount (assignRepToCurrentSubmission st env).2.2 = 0 ∧
      submitCount (assignRepToCurrentSubmission st env).2.2 = 0 ∧
      assignCount (assignRepToCurrentSubmission st env).2.2 ≤ 1) ∧
    (∀ (st : EngineState) (env : BoostEnv) (m : String),
      ¬calculateBoostAmount st.availableTDH < 1 →
      ¬boostNewTotal st - st.votedForSub < 1 →
      env.submit1 = .err m → isAuthMessage m = true →
      authCount (boostCurrentSubmission st env).2.2 = 1 ∧
      (env.auth = .ok () → submitCount (boostCurrentSubmission st env).2.2 = 2) ∧
      ((∃ e, env.auth = .err e) →
        (boostCurrentSubmission st env).2.1 = .sessionExpired ∧
        submitCount (boostCurrentSubmission st env).2.2 = 1 ∧
        (boostCurrentSubmission st env).1.displayTDH = st.votedForSub ∧
        (boostCurrentSubmission st env).1.displayRep = st.availableTDH) ∧
      (env.auth = .ok () → (∃ e, env.submit2 = .err e) →
        (boostCurrentSubmission st env).2.1 = .sessionExpired ∧
        (boostCurrentSubmission st env).1.displayTDH = st.votedForSub ∧
        (boostCurrentSubmission st env).1.displayRep = st.availableTDH)) ∧
    (∀ (st : EngineState) (env : VoteEnv) (m : String),
      ¬st.stagedVote ≤ 0 →
      env.submit1 = .err m → isAuthMessage m = true →
      authCount (submitVote st env).2.2 = 1 ∧
      (env.auth = .ok () → submitCount (submitVote st env).2.2 = 2) ∧
      ((∃ e, env.auth = .err e) →
        (submitVote st env).2.1 = .sessionExpired ∧ (submitVote st env).1 = st) ∧
      (env.auth = .ok () → (∃ e, env.submit2 = .err e) →
        (submitVote st env).2.1 = .sessionExpired ∧ (submitVote st env).1 = st)) ∧
    (∀ (st : EngineState) (env : VoteEnv) (m : String),
      ¬st.stagedVote ≤ 0 →
      env.submit1 = .err m → isAuthMessage m = false →
      (submitVote st env).2.1 = .failed m ∧
      authCount (submitVote st env).2.2 = 0 ∧
      submitCount (submitVote st env).2.2 = 1) := by
  refine ⟨boost_log_shape, vote_log_shape, rep_log_shape, ?_, ?_, ?_⟩
  · intro st env m h1 h2 hs hm
    rw [boost_submitErr_eq st env m h1 h2 hs]
    refine ⟨?_, ?_, ?_, ?_⟩
    · rcases hauth : env.auth with ⟨⟩ | e0
      · rcases hs2 : env.submit2 with ⟨⟩ | e0
        · rcases hr2 : env.refresh2 with r | e0
          · rw [boostCatch_retryOk_eq _ env _ _ _ m _ r hm hauth hs2 hr2]
            simp [authCount, List.countP_append, List.countP_cons, isAuthEv]
          · rw [boostCatch_retryRefreshErr_eq _ env _ _ _ m e0 _ hm hauth hs2 hr2]
            simp [authCount, List.countP_append, List.countP_cons, isAuthEv]
        · rw [boostCatch_retrySubmitErr_eq _ env _ _ _ m e0 _ hm hauth hs2]
          simp [authCount, List.countP_append, List.countP_cons, isAuthEv]
      · rw [boostCatch_authErr_eq _ env _ _ _ m e0 _ hm hauth]
        simp [authCount, List.countP_append, List.countP_cons, isAuthEv]
    · intro hok
      rcases hs2 : env.submit2 with ⟨⟩ | e0
      · rcases hr2 : env.refresh2 with r | e0
        · rw [boostCatch_retryOk_eq _ env _ _ _ m _ r hm hok hs2 hr2]
          simp [submitCount, List.countP_append, List.countP_cons, isSubmitEv]
        · rw [boostCatch_retryRefreshErr_eq _ env _ _ _ m e0 _ hm hok hs2 hr2]
          simp [submitCount, List.countP_append, List.countP_cons, isSubmitEv]
      · rw [boostCatch_retrySubmitErr_eq _ env _ _ _ m e0 _ hm hok hs2]
        simp [submitCount, List.countP_append, List.countP_cons, isSubmitEv]
    · rintro ⟨e0, he⟩
      rw [boostCatch_authErr_eq _ env _ _ _ m e0 _ hm he]
      refine ⟨rfl, ?_, rfl, rfl⟩
      simp [submitCount, List.countP_append, List.countP_cons, isSubmitEv]
    · rintro hok ⟨e0, he2⟩
      rw [boostCatch_retrySubmitErr_eq _ env _ _ _ m e0 _ hm hok he2]
      exact ⟨rfl, rfl, rfl⟩
  · intro st env m h hs hm
    rw [vote_submitErr_eq st env m h hs]
    refine ⟨?_, ?_, ?_, ?_⟩
    · rcases hauth : env.auth with ⟨⟩ | e0
      · rcases hs2 : env.submit2 with ⟨⟩ | e0
        · rcases hr2 : env.refresh2 with r | e0
          · rw [voteCatch_retryOk_eq st env _ m _ r hm hauth hs2 hr2]
            simp [authCount, List.countP_append, List.countP_cons, isAuthEv]
          · rw [voteCatch_retryRefreshErr_eq st env _ m e0 _ hm hauth hs2 hr2]
            simp [authCount, List.countP_append, List.countP_cons, isAuthEv]
        · rw [voteCatch_retrySubmitErr_eq st env _ m e0 _ hm hauth hs2]
          simp [authCount, List.countP_append, List.countP_cons, isAuthEv]
      · rw [voteCatch_authErr_eq st env _ m e0 _ hm hauth]
        simp [authCount, List.countP_append, List.countP_cons, isAuthEv]
    · intro hok
      rcases hs2 : env.submit2 with ⟨⟩ | e0
      · rcases hr2 : env.refresh2 with r | e0
        · rw [voteCatch_retryOk_eq st env _ m _ r hm hok hs2 hr2]
          simp [submitCount, List.countP_append, List.countP_cons, isSubmitEv]
        · rw [voteCatch_retryRefreshErr_eq st env _ m e0 _ hm hok hs2 hr2]
          simp [submitCount, List.countP_append, List.countP_cons, isSubmitEv]
      · rw [voteCatch_retrySubmitErr_eq st env _ m e0 _ hm hok hs2]
        simp [submitCount, List.countP_append, List.countP_cons, isSubmitEv]
    · rintro ⟨e0, he⟩
      rw [voteCatch_authErr_eq st env _ m e0 _ hm he]
      exact ⟨rfl, rfl⟩
    · rintro hok ⟨e0, he2⟩
      rw [voteCatch_retrySubmitErr_eq st env _ m e0 _ hm hok he2]
      exact ⟨rfl, rfl⟩
  · intro st env m h hs hm
    rw [vote_submitErr_eq st env m h hs, voteCatch_nonauth_eq st env _ m _ hm]
    refine ⟨rfl, ?_, ?_⟩
    · simp [authCount, List.countP_cons, isAuthEv]
    · simp [submitCount, List.countP_cons, isSubmitEv]

/-- Witness for `auth_retry_policy_amended`: a vote failing with a 401 whose
re-authentication also fails surfaces the session-expired outcome and leaves the
state unchanged. -/
theorem auth_retry_policy_amended_witness :
    (submitVote sampleState venvAuthErr).2.1 = VoteOutcome.sessionExpired ∧
    (submitVote sampleState venvAuthErr).1 = sampleState :=
  (auth_retry_policy_amended.2.2.2.2.1 sampleState venvAuthErr msg401
      (by decide) rfl (by decide)).2.2.1 ⟨msgNetwork, rfl⟩
